import Mathlib

/-!
Shallow embedding of the JDWP <-> ADB transport (`src/jdwp/jdwp_adb.cc`,
declarations in `src/jdwp/jdwp_priv.h`).

File descriptors are modelled as `Int` with the source's `-1` "unset"
sentinel.  Syscall behaviour (connect, recvmsg, select, read, write) is
supplied by explicit environment values, one per loop iteration, so every
function is a total, executable Lean definition.  Side effects that matter
to the claims (shutdown(2), close(2), sleeps, the pid announcement, the
handshake echo) are recorded in an explicit event trace.

Members of `JdwpNetStateBase` that are only declared in this repository
slice (`HaveFullPacket`, `ConsumeBytes`, `Close`) are modelled from the
spec and marked as such in their doc comments.
-/

namespace JdwpAdb

/-- Observable side effects of the transport, in program order.
`shutdownFd` is the shutdown(2) syscall (half-close, does not release the
descriptor); `closeFd` is close(2); `wakeWrite` is the one-byte write to the
wake pipe's write side; `sleep` is the backoff usleep (in milliseconds);
`sendPid` is the identity announcement on the control channel;
`pipeCreated` is a successful pipe(2) filling `wakeFds`; `write` is the
handshake echo write on the client channel (bytes attempted, return value);
`handlePacket` is the hand-off to the external packet handler. -/
inductive Ev where
  | shutdownFd (fd : Int)
  | closeFd (fd : Int)
  | wakeWrite
  | sleep (ms : Nat)
  | sendPid (bytes : List Char)
  | pipeCreated (rfd wfd : Nat)
  | write (bytes : List Nat) (ret : Int)
  | handlePacket
deriving Repr, DecidableEq

/-- `struct JdwpNetState : JdwpNetStateBase` (jdwp_adb.cc lines 55-76 and
jdwp_priv.h lines 66-97).  `inputBuffer` holds the first `inputCount` bytes
of the source's fixed 8192-byte buffer, so `inputCount` is
`inputBuffer.length`; bytes past `inputCount` are garbage in the source and
are not represented. -/
structure JdwpNetState where
  clientSock : Int
  controlSock : Int
  shuttingDown : Bool
  wakeFds0 : Int
  wakeFds1 : Int
  inputBuffer : List Nat
  awaitingHandshake : Bool
deriving Repr, DecidableEq

/-- `kInputBufferSize` (jdwp_priv.h line 70). -/
def kInputBufferSize : Nat := 8192

/-- `kMagicHandshake` (jdwp_priv.h line 35), as ASCII byte values. -/
def kMagicHandshake : List Nat := "JDWP-Handshake".data.map Char.toNat

/-- `kMagicHandshakeLen` (jdwp_priv.h line 36). -/
def kMagicHandshakeLen : Nat := 14

/-- Outcome of one raw recvmsg(2) call inside `receiveClientFd`:
interrupted (negative result, errno EINTR), other error (negative result),
peer closed (zero), or a received 1-byte message that either does or does
not carry an ancillary SCM_RIGHTS descriptor. -/
inductive RecvRaw where
  | intr
  | err
  | closed
  | msg (fd : Option Nat)
deriving Repr, DecidableEq

/-- The `do { ret = recvmsg(...); } while (ret < 0 && errno == EINTR)` loop
(jdwp_adb.cc lines 152-154): the first non-EINTR outcome of the supplied
raw outcomes, `none` if the call never returns (still blocked). -/
def recvmsgRetry : List RecvRaw → Option RecvRaw
  | [] => none
  | RecvRaw.intr :: rest => recvmsgRetry rest
  | r :: _ => some r

/-- `receiveClientFd` (jdwp_adb.cc lines 125-166).  The ancillary-data
slot is pre-initialised to `-1` (line 150); on `ret <= 0` the control
socket is closed and cleared and `-1` is returned (lines 156-163);
otherwise whatever sits in the ancillary slot is returned (line 165) -
which is the pre-initialised `-1`, with the control socket left untouched,
when the message carried no descriptor.  Returns `none` when the recvmsg
never completes. -/
def receiveClientFd (raws : List RecvRaw) (s : JdwpNetState) :
    Option (Int × JdwpNetState × List Ev) :=
  match recvmsgRetry raws with
  | none => none
  | some RecvRaw.intr => none
  | some RecvRaw.err =>
      some (-1, { s with controlSock := -1 }, [Ev.closeFd s.controlSock])
  | some RecvRaw.closed =>
      some (-1, { s with controlSock := -1 }, [Ev.closeFd s.controlSock])
  | some (RecvRaw.msg none) => some (-1, s, [])
  | some (RecvRaw.msg (some fd)) => some ((fd : Int), s, [])

/-- Lowercase hex digit character, as produced by printf's `%x`. -/
def hexDigit (n : Nat) : Char :=
  if n < 10 then Char.ofNat (48 + n) else Char.ofNat (87 + n)

/-- Fuel-driven most-significant-first hex digits of `n` (no leading
zeros; `0` renders as "0").  The fuel never runs out when it starts at
`n` itself. -/
def toHexAux : Nat → Nat → List Char
  | 0, n => [hexDigit (n % 16)]
  | fuel + 1, n =>
      if n < 16 then [hexDigit n]
      else toHexAux fuel (n / 16) ++ [hexDigit (n % 16)]

/-- Minimal lowercase hex rendering of `n`, as printf's `%x`. -/
def toHex (n : Nat) : List Char := toHexAux n n

/-- Zero-pad a digit string on the left to at least width 4, as printf's
`%04x` padding. -/
def zeroPad4 (l : List Char) : List Char :=
  List.replicate (4 - l.length) '0' ++ l

/-- The identity announcement built by
`snprintf(buff, sizeof(buff), "%04x", getpid())` (jdwp_adb.cc line 202)
and sent with `send(netState->controlSock, buff, 4, 0)` (line 231):
`%04x` renders the full pid in lowercase hex padded to at least 4 digits,
and `snprintf` with a 5-byte buffer keeps only the first 4 characters. -/
def pidAnnouncement (pid : Nat) : List Char :=
  (zeroPad4 (toHex pid)).take 4

/-- The announcement as the claim words it: the lowercase zero-padded hex
rendering of the LOW 16 BITS of the identifier.  Written from the claim's
words, for comparison with `pidAnnouncement`, which is modelled from the
source. -/
def pidAnnouncementSpec (pid : Nat) : List Char :=
  zeroPad4 (toHex (pid % 65536))

/-- `adbStateShutdown` (jdwp_adb.cc lines 289-315): set `shuttingDown`,
shutdown(2) - but do not close(2) - the client and control sockets while
clearing their fields to `-1`, then write one byte to the wake pipe's
write side. -/
def adbStateShutdown (s : JdwpNetState) : JdwpNetState × List Ev :=
  let s0 := { s with shuttingDown := true }
  let p1 : JdwpNetState × List Ev :=
    if 0 ≤ s0.clientSock then
      ({ s0 with clientSock := -1 }, [Ev.shutdownFd s0.clientSock])
    else (s0, [])
  let p2 : JdwpNetState × List Ev :=
    if 0 ≤ p1.1.controlSock then
      ({ p1.1 with controlSock := -1 }, [Ev.shutdownFd p1.1.controlSock])
    else (p1.1, [])
  let e3 : List Ev := if 0 ≤ p2.1.wakeFds1 then [Ev.wakeWrite] else []
  (p2.1, p1.2 ++ p2.2 ++ e3)

/-- `adbStateFree` (jdwp_adb.cc lines 82-105): shutdown(2) and close(2)
the client and control sockets if still set, close the wake pipe ends and
clear their fields, then delete the state. -/
def adbStateFree (s : JdwpNetState) : JdwpNetState × List Ev :=
  let e1 : List Ev :=
    if 0 ≤ s.clientSock then
      [Ev.shutdownFd s.clientSock, Ev.closeFd s.clientSock]
    else []
  let e2 : List Ev :=
    if 0 ≤ s.controlSock then
      [Ev.shutdownFd s.controlSock, Ev.closeFd s.controlSock]
    else []
  let p3 : JdwpNetState × List Ev :=
    if 0 ≤ s.wakeFds0 then
      ({ s with wakeFds0 := -1 }, [Ev.closeFd s.wakeFds0])
    else (s, [])
  let p4 : JdwpNetState × List Ev :=
    if 0 ≤ p3.1.wakeFds1 then
      ({ p3.1 with wakeFds1 := -1 }, [Ev.closeFd p3.1.wakeFds1])
    else (p3.1, [])
  (p4.1, e1 ++ e2 ++ p3.2 ++ p4.2)

/-- Number of close(2) calls on descriptor `fd` in a trace. -/
def closeCount : List Ev → Int → Nat
  | [], _ => 0
  | Ev.closeFd f :: rest, fd =>
      (if f = fd then 1 else 0) + closeCount rest fd
  | _ :: rest, fd => closeCount rest fd

/-- One iteration of the `connect` loop environment (jdwp_adb.cc lines
205-253): whether connect(2) succeeded; on success, whether the peer-trust
check passed and whether the pid send succeeded; on failure, the value of
`shuttingDown` observed after the backoff sleep (the field is written by
another thread, so its observed value is environment input). -/
structure ConnAttempt where
  connectOk : Bool
  peerTrusted : Bool
  sendOk : Bool
  shutdownAfterSleep : Bool
deriving Repr, DecidableEq

/-- Result of the connect loop, carrying its event trace. -/
inductive ConnRes where
  | connected (evs : List Ev)
  | failed (evs : List Ev)
  | outOfEnv (evs : List Ev)
deriving Repr, DecidableEq

/-- Trace of a `ConnRes`. -/
def ConnRes.evs : ConnRes → List Ev
  | ConnRes.connected evs => evs
  | ConnRes.failed evs => evs
  | ConnRes.outOfEnv evs => evs

/-- `sleep_ms += sleep_ms >> 1; if (sleep_ms > sleep_max_ms) sleep_ms =
sleep_max_ms;` with `sleep_max_ms = 2*1000` (jdwp_adb.cc lines 187-188 and
246-249). -/
def nextSleep (ms : Nat) : Nat :=
  if ms + ms / 2 > 2000 then 2000 else ms + ms / 2

/-- The `for (;;)` connect loop of `acceptConnection` (jdwp_adb.cc lines
205-253), one `ConnAttempt` of environment per iteration.  On a successful
connect: an untrusted peer shuts the socket down and fails; otherwise the
4-byte pid announcement is sent (failure of the send is a hard failure).
On a failed connect: sleep `sleepMs`, grow the backoff, fail if
`shuttingDown` is observed, else loop.  `cs` is the control socket, used
only for the untrusted-peer shutdown event. -/
def connectLoop (pid : Nat) (cs : Int) (sleepMs : Nat) :
    List ConnAttempt → ConnRes
  | [] => ConnRes.outOfEnv []
  | a :: rest =>
    if a.connectOk then
      if a.peerTrusted then
        if a.sendOk then ConnRes.connected [Ev.sendPid (pidAnnouncement pid)]
        else ConnRes.failed []
      else ConnRes.failed [Ev.shutdownFd cs]
    else
      if a.shutdownAfterSleep then ConnRes.failed [Ev.sleep sleepMs]
      else
        match connectLoop pid cs (nextSleep sleepMs) rest with
        | ConnRes.connected evs => ConnRes.connected (Ev.sleep sleepMs :: evs)
        | ConnRes.failed evs => ConnRes.failed (Ev.sleep sleepMs :: evs)
        | ConnRes.outOfEnv evs => ConnRes.outOfEnv (Ev.sleep sleepMs :: evs)

/-- The code's backoff sequence: `sleepAfter n` is the duration of the
(n+1)-th sleep, starting at 500 and stepped by `nextSleep`. -/
def sleepAfter : Nat → Nat
  | 0 => 500
  | n + 1 => nextSleep (sleepAfter n)

/-- The sleep durations of a trace, in order. -/
def sleepEvs (evs : List Ev) : List Nat :=
  evs.filterMap fun e =>
    match e with
    | Ev.sleep ms => some ms
    | _ => none

/-- The claim's backoff sequence: starts at 500 and is multiplied by
EXACTLY 1.5 each round, capped at 2000.  Written from the claim's words
(over ℚ, since exact multiplication by 1.5 leaves the integers), for
comparison with the code's `sleepAfter`. -/
def claimSleepSeq : Nat → ℚ
  | 0 => 500
  | n + 1 => min (claimSleepSeq n * 3 / 2) 2000

/-- Environment for one pass of `acceptConnection`'s `retry:` loop
(jdwp_adb.cc lines 181-273): the observed `shuttingDown` at the top of the
loop, the socket(2) and pipe(2) results, the connect-loop attempts, the
raw recvmsg outcomes for `receiveClientFd`, and the observed
`shuttingDown` right after the receive. -/
structure RetryEnv where
  shutdownAtTop : Bool
  socketRet : Int
  pipeRet : Option (Nat × Nat)
  attempts : List ConnAttempt
  recvRaws : List RecvRaw
  shutdownAfterRecv : Bool
deriving Repr, DecidableEq

/-- Outcome of one pass of the `retry:` loop: `ret` is a `return` from
`acceptConnection`; `recvFailed` is the `netState->clientSock < 0` branch
that increments the retry counter; `blocked` means the environment ran out
(a still-blocked syscall). -/
inductive AccOut where
  | ret (ok : Bool) (s : JdwpNetState) (evs : List Ev)
  | recvFailed (s : JdwpNetState) (evs : List Ev)
  | blocked (s : JdwpNetState) (evs : List Ev)
deriving Repr, DecidableEq

/-- State of an `AccOut`. -/
def AccOut.state : AccOut → JdwpNetState
  | AccOut.ret _ s _ => s
  | AccOut.recvFailed s _ => s
  | AccOut.blocked s _ => s

/-- Trace of an `AccOut`. -/
def AccOut.evs : AccOut → List Ev
  | AccOut.ret _ _ evs => evs
  | AccOut.recvFailed _ evs => evs
  | AccOut.blocked _ evs => evs

/-- Lines 256-273 of jdwp_adb.cc: receive a client descriptor, store it in
`clientSock` (whatever it is), return false if `shuttingDown` was observed,
flag a receive failure for the retry counter if negative, else mark the
connection as awaiting the handshake with an empty buffer and succeed. -/
def acceptRecv (s : JdwpNetState) (e : RetryEnv) (evs : List Ev) : AccOut :=
  match receiveClientFd e.recvRaws s with
  | none => AccOut.blocked s evs
  | some (fd, s1, revs) =>
    let s2 := { s1 with clientSock := fd }
    if e.shutdownAfterRecv then AccOut.ret false s2 (evs ++ revs)
    else if fd < 0 then AccOut.recvFailed s2 (evs ++ revs)
    else
      AccOut.ret true
        { s2 with awaitingHandshake := true, inputBuffer := [] }
        (evs ++ revs)

/-- One pass of the `retry:` loop of `acceptConnection` (jdwp_adb.cc
lines 181-273).  Note the establishment branch (lines 186-254) runs
whenever `controlSock < 0` and unconditionally calls pipe(2) into
`wakeFds` (line 197), whether or not the wake pipe already exists. -/
def acceptIter (pid : Nat) (s : JdwpNetState) (e : RetryEnv) : AccOut :=
  if e.shutdownAtTop then AccOut.ret false s []
  else if 0 ≤ s.controlSock then acceptRecv s e []
  else if e.socketRet < 0 then AccOut.ret false s []
  else
    match e.pipeRet with
    | none => AccOut.ret false { s with controlSock := e.socketRet } []
    | some (r, w) =>
      let s2 := { s with controlSock := e.socketRet,
                         wakeFds0 := (r : Int), wakeFds1 := (w : Int) }
      match connectLoop pid s2.controlSock 500 e.attempts with
      | ConnRes.connected evs => acceptRecv s2 e (Ev.pipeCreated r w :: evs)
      | ConnRes.failed evs =>
          AccOut.ret false s2 (Ev.pipeCreated r w :: evs)
      | ConnRes.outOfEnv evs =>
          AccOut.blocked s2 (Ev.pipeCreated r w :: evs)

/-- Overall result of `acceptConnection`: `ok`/`fail` are its `true` and
`false` returns, `retriesExceeded` the "adb connection max retries
exceeded" failure (also a `false` return), `blocked` an exhausted
environment. -/
inductive ARes where
  | ok
  | fail
  | retriesExceeded
  | blocked
deriving Repr, DecidableEq

/-- Prepend a trace to the trace of a result triple. -/
def withEvs {α : Type} (evs : List Ev) (r : α × JdwpNetState × List Ev) :
    α × JdwpNetState × List Ev :=
  (r.1, r.2.1, evs ++ r.2.2)

/-- The `retry:`/`goto retry` loop of `acceptConnection` (jdwp_adb.cc
lines 177-273) with an explicit retry counter: a receive failure
increments `retryCount` and, once it exceeds 5, fails terminally (lines
262-267); otherwise the loop is re-entered on the next environment
element, starting again from the `shuttingDown` check. -/
def acceptGo (pid : Nat) : JdwpNetState → Nat → List RetryEnv →
    ARes × JdwpNetState × List Ev
  | s, _, [] => (ARes.blocked, s, [])
  | s, retryCount, e :: rest =>
    match acceptIter pid s e with
    | AccOut.ret true s1 evs => (ARes.ok, s1, evs)
    | AccOut.ret false s1 evs => (ARes.fail, s1, evs)
    | AccOut.blocked s1 evs => (ARes.blocked, s1, evs)
    | AccOut.recvFailed s1 evs =>
      if retryCount + 1 > 5 then (ARes.retriesExceeded, s1, evs)
      else withEvs evs (acceptGo pid s1 (retryCount + 1) rest)

/-- `acceptConnection` (jdwp_adb.cc lines 175-274): the retry loop entered
with `retryCount = 0`. -/
def acceptConnection (pid : Nat) (s : JdwpNetState) (envs : List RetryEnv) :
    ARes × JdwpNetState × List Ev :=
  acceptGo pid s 0 envs

/-- Big-endian 32-bit value of the first four bytes of a buffer. -/
def get4BE (l : List Nat) : Nat :=
  l.getD 0 0 * 16777216 + l.getD 1 0 * 65536 + l.getD 2 0 * 256 + l.getD 3 0

/-- Modelled from the spec: `JdwpNetStateBase::HaveFullPacket` is declared
in jdwp_priv.h (line 84) but implemented outside this repository slice.
Spec 4.4/4.5: while awaiting the handshake a full chunk is the 14
handshake bytes; otherwise a packet is complete when at least the 11-byte
header is buffered and the buffered byte count reaches the length declared
big-endian in the header's first 4 bytes. -/
def HaveFullPacket (s : JdwpNetState) : Bool :=
  if s.awaitingHandshake then decide (14 ≤ s.inputBuffer.length)
  else
    decide (11 ≤ s.inputBuffer.length) &&
      decide (get4BE s.inputBuffer ≤ s.inputBuffer.length)

/-- Modelled from the spec: `JdwpNetStateBase::ConsumeBytes` is declared in
jdwp_priv.h (line 77) but implemented outside this repository slice.  Spec
3: consume N bytes from the front of the buffer, shifting the remainder to
the front. -/
def consumeBytes (s : JdwpNetState) (n : Nat) : JdwpNetState :=
  { s with inputBuffer := s.inputBuffer.drop n }

/-- Modelled from the spec: `JdwpNetStateBase::Close` is declared in
jdwp_priv.h (line 86) but implemented outside this repository slice.  Spec
9: a mutex-guarded close-and-clear of the client channel. -/
def stateClose (s : JdwpNetState) : JdwpNetState × List Ev :=
  if 0 ≤ s.clientSock then
    ({ s with clientSock := -1 }, [Ev.closeFd s.clientSock])
  else (s, [])

/-- Outcome of one select(2) call: a failure (with or without errno EINTR),
or readiness flags for the wake pipe's read end, the control socket and
the client socket (each meaningful only if the corresponding descriptor
was put in the read set). -/
inductive SelRes where
  | err (eintr : Bool)
  | ready (wake control client : Bool)
deriving Repr, DecidableEq

/-- Outcome of the single read(2) on the client socket: a failure (with or
without errno EINTR) or the bytes delivered (`data []` is a zero-byte
read, i.e. EOF). -/
inductive ReadRes where
  | err (eintr : Bool)
  | data (bytes : List Nat)
deriving Repr, DecidableEq

/-- Environment for one iteration of `processIncoming`'s `while (1)` wait
loop: the select outcome, the raw recvmsg outcomes should the control
channel be drained, and the read outcome should the client channel be
read. -/
structure IterEnv where
  sel : SelRes
  recvRaws : List RecvRaw
  read : ReadRes
deriving Repr, DecidableEq

/-- Outcome of one iteration of the wait loop: return from
`processIncoming`, loop again, exit the loop with freshly read bytes
appended, die on a failed CHECK, or block (environment exhausted inside
`receiveClientFd`). -/
inductive IterOut where
  | ret (b : Bool) (s : JdwpNetState) (evs : List Ev)
  | cont (s : JdwpNetState) (evs : List Ev)
  | gotData (s : JdwpNetState) (evs : List Ev)
  | abort (s : JdwpNetState) (evs : List Ev)
  | blocked (s : JdwpNetState) (evs : List Ev)
deriving Repr, DecidableEq

/-- State of an `IterOut`. -/
def IterOut.state : IterOut → JdwpNetState
  | IterOut.ret _ s _ => s
  | IterOut.cont s _ => s
  | IterOut.gotData s _ => s
  | IterOut.abort s _ => s
  | IterOut.blocked s _ => s

/-- Trace of an `IterOut`. -/
def IterOut.evs : IterOut → List Ev
  | IterOut.ret _ _ evs => evs
  | IterOut.cont _ evs => evs
  | IterOut.gotData _ evs => evs
  | IterOut.abort _ evs => evs
  | IterOut.blocked _ evs => evs

/-- The client-socket branch of the wait loop (jdwp_adb.cc lines 430-446):
if the client socket is set and ready, perform one read for up to the
remaining buffer capacity.  A read failure with errno EINTR makes
`processIncoming` RETURN TRUE at once (line 438); any other failure and a
zero-byte read go to `fail`; read bytes are appended to the buffer and the
loop is exited.  `evs` carries events of the control-drain step of the
same iteration. -/
def piIterClient (s : JdwpNetState) (evs : List Ev) (rd : ReadRes)
    (client : Bool) : IterOut :=
  if 0 ≤ s.clientSock ∧ client then
    match rd with
    | ReadRes.err eintr =>
        if eintr then IterOut.ret true s evs
        else IterOut.ret false (stateClose s).1 (evs ++ (stateClose s).2)
    | ReadRes.data bs =>
        let bs1 := bs.take (kInputBufferSize - s.inputBuffer.length)
        if bs1 = [] then
          IterOut.ret false (stateClose s).1 (evs ++ (stateClose s).2)
        else IterOut.gotData { s with inputBuffer := s.inputBuffer ++ bs1 } evs
  else IterOut.cont s evs

/-- The control-socket branch of the wait loop (jdwp_adb.cc lines
416-429): if the control socket is set and ready, drain it with
`receiveClientFd`; a received (second) descriptor is closed on the spot;
on a negative result `CHECK_LT(netState->controlSock, 0)` aborts unless
the control socket was indeed closed.  Control then falls through to the
client branch. -/
def piIterCtrl (s : JdwpNetState) (e : IterEnv) (control client : Bool) :
    IterOut :=
  if 0 ≤ s.controlSock ∧ control then
    match receiveClientFd e.recvRaws s with
    | none => IterOut.blocked s []
    | some (fd, s1, revs) =>
        if 0 ≤ fd then piIterClient s1 (revs ++ [Ev.closeFd fd]) e.read client
        else if 0 ≤ s1.controlSock then IterOut.abort s1 revs
        else piIterClient s1 revs e.read client
  else piIterClient s [] e.read client

/-- One iteration of `processIncoming`'s `while (1)` wait loop
(jdwp_adb.cc lines 353-447): if no descriptor is open, return false
directly (lines 386-389, note: no `Close`); a select failure retries on
EINTR and fails otherwise; wake-pipe readiness fails; then the control and
client branches run in order. -/
def piIter (s : JdwpNetState) (e : IterEnv) : IterOut :=
  if s.controlSock < 0 ∧ s.clientSock < 0 ∧ s.wakeFds0 < 0 then
    IterOut.ret false s []
  else
    match e.sel with
    | SelRes.err eintr =>
        if eintr then IterOut.cont s []
        else IterOut.ret false (stateClose s).1 (stateClose s).2
    | SelRes.ready wake control client =>
        if 0 ≤ s.wakeFds0 ∧ wake then
          IterOut.ret false (stateClose s).1 (stateClose s).2
        else piIterCtrl s e control client

/-- Result of a `processIncoming` call: a return value, a CHECK abort, or
a blocked/exhausted environment. -/
inductive PIRes where
  | ret (b : Bool)
  | abort
  | blocked
deriving Repr, DecidableEq

/-- The code after the wait loop (jdwp_adb.cc lines 455-492): the
handshake special case - compare the first 14 buffered bytes with
`kMagicHandshake`; on mismatch `fail` with no echo; on match echo them
back (any result other than 14 written bytes is `fail`), consume them and
clear `awaitingHandshake` - and otherwise the hand-off to
`state->HandlePacket()`, whose return value `handleRet` is environment. -/
def afterLoop (s : JdwpNetState) (writeRet : Int) (handleRet : Bool) :
    PIRes × JdwpNetState × List Ev :=
  if s.awaitingHandshake then
    if s.inputBuffer.take 14 = kMagicHandshake then
      if writeRet = 14 then
        (PIRes.ret true,
         { (consumeBytes s 14) with awaitingHandshake := false },
         [Ev.write (s.inputBuffer.take 14) writeRet])
      else
        (PIRes.ret false, (stateClose s).1,
         Ev.write (s.inputBuffer.take 14) writeRet :: (stateClose s).2)
    else (PIRes.ret false, (stateClose s).1, (stateClose s).2)
  else (PIRes.ret handleRet, s, [Ev.handlePacket])

/-- The wait loop of `processIncoming`, one `IterEnv` per iteration,
followed (once a read produced data) by the full-packet check of lines
449-452 and, when a full packet is buffered, by `afterLoop`. -/
def piLoop (writeRet : Int) (handleRet : Bool) :
    JdwpNetState → List IterEnv → PIRes × JdwpNetState × List Ev
  | s, [] => (PIRes.blocked, s, [])
  | s, e :: rest =>
    match piIter s e with
    | IterOut.cont s1 evs => withEvs evs (piLoop writeRet handleRet s1 rest)
    | IterOut.ret b s1 evs => (PIRes.ret b, s1, evs)
    | IterOut.abort s1 evs => (PIRes.abort, s1, evs)
    | IterOut.blocked s1 evs => (PIRes.blocked, s1, evs)
    | IterOut.gotData s1 evs =>
        if HaveFullPacket s1 then withEvs evs (afterLoop s1 writeRet handleRet)
        else (PIRes.ret true, s1, evs)

/-- Environment of one `processIncoming` call: the wait-loop iterations,
the result of the handshake-echo write(2), and the packet handler's
verdict. -/
structure PIEnv where
  iters : List IterEnv
  writeRet : Int
  handleRet : Bool
deriving Repr, DecidableEq

/-- `processIncoming` (jdwp_adb.cc lines 344-492): `CHECK_GE(clientSock,
0)` aborts on an unset client socket; with a full packet already buffered
the wait loop is skipped entirely; otherwise the wait loop runs until a
read delivers data, then the handshake / packet hand-off code runs. -/
def processIncoming (s : JdwpNetState) (env : PIEnv) :
    PIRes × JdwpNetState × List Ev :=
  if s.clientSock < 0 then (PIRes.abort, s, [])
  else if HaveFullPacket s then afterLoop s env.writeRet env.handleRet
  else piLoop env.writeRet env.handleRet s env.iters

/-! Helper lemmas. -/

lemma stateClose_awaiting (s : JdwpNetState) :
    (stateClose s).1.awaitingHandshake = s.awaitingHandshake := by
  unfold stateClose; split <;> rfl

lemma stateClose_no_write (s : JdwpNetState) :
    ∀ b r, Ev.write b r ∉ (stateClose s).2 := by
  unfold stateClose; split <;> simp

/-- Everything `receiveClientFd` leaves untouched when it returns:
only `controlSock` can change, and the only event it can emit is the
close of the control socket. -/
lemma receiveClientFd_inv (raws : List RecvRaw) (s : JdwpNetState)
    (fd : Int) (s1 : JdwpNetState) (revs : List Ev)
    (h : receiveClientFd raws s = some (fd, s1, revs)) :
    s1.awaitingHandshake = s.awaitingHandshake ∧
    s1.clientSock = s.clientSock ∧
    s1.inputBuffer = s.inputBuffer ∧
    s1.wakeFds0 = s.wakeFds0 ∧
    s1.wakeFds1 = s.wakeFds1 ∧
    (∀ b r, Ev.write b r ∉ revs) ∧
    (∀ r w, Ev.pipeCreated r w ∉ revs) ∧
    Ev.handlePacket ∉ revs := by
  unfold receiveClientFd at h
  rcases hr : recvmsgRetry raws with _ | r
  · rw [hr] at h; exact absurd h (by simp)
  · rw [hr] at h
    cases r with
    | intr => exact absurd h (by simp)
    | err =>
        simp only [Option.some.injEq, Prod.mk.injEq] at h
        obtain ⟨_, hs, hrevs⟩ := h
        subst hs; subst hrevs; simp
    | closed =>
        simp only [Option.some.injEq, Prod.mk.injEq] at h
        obtain ⟨_, hs, hrevs⟩ := h
        subst hs; subst hrevs; simp
    | msg ofd =>
        cases ofd with
        | none =>
            simp only [Option.some.injEq, Prod.mk.injEq] at h
            obtain ⟨_, hs, hrevs⟩ := h
            subst hs; subst hrevs; simp
        | some f =>
            simp only [Option.some.injEq, Prod.mk.injEq] at h
            obtain ⟨_, hs, hrevs⟩ := h
            subst hs; subst hrevs; simp

/-! Claim C7. -/

/-- Claim C7: whenever the blocking receive in `receiveClientFd` returns
0 or a negative result (after the internal EINTR retry loop), the
operation closes the control channel, sets the field to the `-1`
sentinel, and reports `-1` to the caller; EINTR outcomes are retried
internally and a non-EINTR outcome is never retried (the result is
determined by the first non-EINTR outcome alone). -/
theorem c7_receive_failure_closes_control (raws : List RecvRaw)
    (s : JdwpNetState)
    (h : recvmsgRetry raws = some RecvRaw.err ∨
         recvmsgRetry raws = some RecvRaw.closed) :
    receiveClientFd raws s =
      some (-1, { s with controlSock := -1 }, [Ev.closeFd s.controlSock]) ∧
    ∀ (raws1 : List RecvRaw) (s1 : JdwpNetState),
      receiveClientFd (RecvRaw.intr :: raws1) s1 = receiveClientFd raws1 s1 := by
  constructor
  · rcases h with h | h <;> · unfold receiveClientFd; rw [h]
  · intro raws1 s1; rfl

/-- Concrete descriptor-receive state for the C7 witness. -/
def c7state : JdwpNetState :=
  { clientSock := -1, controlSock := 4, shuttingDown := false,
    wakeFds0 := 2, wakeFds1 := 3, inputBuffer := [],
    awaitingHandshake := false }

/-- Witness for C7 at a concrete failing receive. -/
theorem c7_receive_failure_closes_control_witness :
    receiveClientFd [RecvRaw.err] c7state =
      some (-1, { c7state with controlSock := -1 },
            [Ev.closeFd c7state.controlSock]) :=
  (c7_receive_failure_closes_control [RecvRaw.err] c7state (Or.inl rfl)).1

/-! Claim C10. -/

/-- Concrete state for the C10 failing input: an established control
channel (fd 4) and an active client channel (fd 5). -/
def c10state : JdwpNetState :=
  { clientSock := 5, controlSock := 4, shuttingDown := false,
    wakeFds0 := 2, wakeFds1 := 3, inputBuffer := [],
    awaitingHandshake := true }

/-- The C10 failing input: the wait reports the control channel ready and
recvmsg returns the 1-byte message with NO ancillary descriptor. -/
def c10env : IterEnv :=
  { sel := SelRes.ready false true false,
    recvRaws := [RecvRaw.msg none], read := ReadRes.err true }

/-- Claim C10 (code bug): when recvmsg returns a positive byte count for a
message carrying no ancillary descriptor, `receiveClientFd` returns the
pre-initialised `-1` WITHOUT closing the control socket - contradicting
its own contract comment ("On failure, returns -1 and closes
netState->controlSock") - and the drain path of `processIncoming` then
fails its `CHECK_LT(netState->controlSock, 0)` assertion and aborts. -/
theorem c10_check_lt_fails :
    receiveClientFd [RecvRaw.msg none] c10state = some (-1, c10state, []) ∧
    (-1 : Int) < 0 ∧
    0 ≤ c10state.controlSock ∧
    piIter c10state c10env = IterOut.abort c10state [] := by decide

/-! Claim C2. -/

/-- Concrete session state for the C2 counterexample: client fd 3,
control fd 4, wake pipe fds 5 and 6, all open. -/
def c2state : JdwpNetState :=
  { clientSock := 3, controlSock := 4, shuttingDown := false,
    wakeFds0 := 5, wakeFds1 := 6, inputBuffer := [],
    awaitingHandshake := false }

/-- The syscall trace of `adbStateShutdown` followed by `adbStateFree` on
`c2state`. -/
def c2trace : List Ev :=
  (adbStateShutdown c2state).2 ++
    (adbStateFree (adbStateShutdown c2state).1).2

/-- Counterexample to claim C2 as stated: running shutdown then free on a
state with open client (3), control (4) and wake (5, 6) descriptors
closes the wake descriptors once each but closes the client and control
descriptors ZERO times - not "every owned descriptor exactly once" - and
`adbStateShutdown` sets both fields to the `-1` sentinel while no close
of those descriptors has happened (nor ever does), leaving them dangling
outside the state record. -/
theorem c2_close_exactly_once_cex :
    closeCount c2trace 3 = 0 ∧ closeCount c2trace 4 = 0 ∧
    closeCount c2trace 5 = 1 ∧ closeCount c2trace 6 = 1 ∧
    (adbStateShutdown c2state).1.clientSock = -1 ∧
    (adbStateShutdown c2state).1.controlSock = -1 ∧
    Ev.closeFd 3 ∉ (adbStateShutdown c2state).2 ∧
    ¬ (closeCount c2trace 3 = 1 ∧ closeCount c2trace 4 = 1) := by decide

/-- A session state with the four descriptor fields as parameters. -/
def c2StateOf (c k w0 w1 : Int) : JdwpNetState :=
  { clientSock := c, controlSock := k, shuttingDown := false,
    wakeFds0 := w0, wakeFds1 := w1, inputBuffer := [],
    awaitingHandshake := false }

/-- The shutdown-then-free syscall trace from `c2StateOf`. -/
def c2TraceOf (c k w0 w1 : Int) : List Ev :=
  (adbStateShutdown (c2StateOf c k w0 w1)).2 ++
    (adbStateFree (adbStateShutdown (c2StateOf c k w0 w1)).1).2

/-- Claim C2, amended: for any open, pairwise-distinct descriptors,
shutdown followed by free never closes any descriptor twice and closes
the two wake-pipe descriptors exactly once each; but the client and
control descriptors are only shut down (half-closed), never closed, while
`adbStateShutdown` has already reset their fields to the `-1` sentinel,
so those two descriptors are left open outside the state record. -/
theorem c2_close_at_most_once (c k w0 w1 : Int)
    (hc : 0 ≤ c) (hk : 0 ≤ k) (hw0 : 0 ≤ w0) (hw1 : 0 ≤ w1)
    (h01 : w0 ≠ w1) (hcw0 : c ≠ w0) (hcw1 : c ≠ w1)
    (hkw0 : k ≠ w0) (hkw1 : k ≠ w1) :
    (∀ fd : Int, closeCount (c2TraceOf c k w0 w1) fd ≤ 1) ∧
    closeCount (c2TraceOf c k w0 w1) w0 = 1 ∧
    closeCount (c2TraceOf c k w0 w1) w1 = 1 ∧
    closeCount (c2TraceOf c k w0 w1) c = 0 ∧
    closeCount (c2TraceOf c k w0 w1) k = 0 ∧
    Ev.shutdownFd c ∈ c2TraceOf c k w0 w1 ∧
    Ev.shutdownFd k ∈ c2TraceOf c k w0 w1 ∧
    (adbStateShutdown (c2StateOf c k w0 w1)).1.clientSock = -1 ∧
    (adbStateShutdown (c2StateOf c k w0 w1)).1.controlSock = -1 := by
  have htr : c2TraceOf c k w0 w1 =
      [Ev.shutdownFd c, Ev.shutdownFd k, Ev.wakeWrite,
       Ev.closeFd w0, Ev.closeFd w1] := by
    unfold c2TraceOf c2StateOf adbStateShutdown adbStateFree
    simp [hc, hk, hw0, hw1]
  have hsh : (adbStateShutdown (c2StateOf c k w0 w1)).1.clientSock = -1 ∧
      (adbStateShutdown (c2StateOf c k w0 w1)).1.controlSock = -1 := by
    unfold c2StateOf adbStateShutdown
    simp [hc, hk]
  refine ⟨?_, ?_, ?_, ?_, ?_, ?_, ?_, hsh.1, hsh.2⟩
  · intro fd
    rw [htr]
    simp only [closeCount]
    split_ifs <;> omega
  · rw [htr]
    simp only [closeCount]
    split_ifs <;> omega
  · rw [htr]
    simp only [closeCount]
    split_ifs <;> omega
  · rw [htr]
    simp only [closeCount]
    split_ifs <;> omega
  · rw [htr]
    simp only [closeCount]
    split_ifs <;> omega
  · rw [htr]; simp
  · rw [htr]; simp

/-- Witness for the amended C2 at the concrete descriptors 3, 4, 5, 6. -/
theorem c2_close_at_most_once_witness :
    closeCount (c2TraceOf 3 4 5 6) 5 = 1 ∧
    closeCount (c2TraceOf 3 4 5 6) 3 = 0 ∧
    (adbStateShutdown (c2StateOf 3 4 5 6)).1.clientSock = -1 := by
  have h := c2_close_at_most_once 3 4 5 6 (by decide) (by decide) (by decide)
    (by decide) (by decide) (by decide) (by decide) (by decide) (by decide)
  exact ⟨h.2.1, h.2.2.2.1, h.2.2.2.2.2.2.2.1⟩

/-! Claim C3. -/

lemma zeroPad4_length (l : List Char) :
    (zeroPad4 l).length = (4 - l.length) + l.length := by
  simp [zeroPad4]

lemma toHexAux_length (fuel : Nat) :
    ∀ (n k : Nat), n < 16 ^ (k + 1) → (toHexAux fuel n).length ≤ k + 1 := by
  induction fuel with
  | zero => intro n k _; simp [toHexAux]
  | succ fuel ih =>
    intro n k h
    by_cases h16 : n < 16
    · simp [toHexAux, h16]
    · cases k with
      | zero =>
        have : (16 : Nat) ^ (0 + 1) = 16 := by norm_num
        rw [this] at h
        exact absurd h h16
      | succ k1 =>
        have hmul : n < 16 ^ (k1 + 1) * 16 := by
          have : (16 : Nat) ^ (k1 + 1 + 1) = 16 ^ (k1 + 1) * 16 := by ring
          rw [this] at h
          exact h
        have hdiv : n / 16 < 16 ^ (k1 + 1) :=
          (Nat.div_lt_iff_lt_mul (by norm_num)).mpr hmul
        have hrec := ih (n / 16) k1 hdiv
        simp only [toHexAux, if_neg h16, List.length_append,
          List.length_cons, List.length_nil]
        omega

lemma toHex_length_le4 (n : Nat) (h : n < 65536) : (toHex n).length ≤ 4 := by
  have h4 : n < 16 ^ (3 + 1) := by
    have : (16 : Nat) ^ (3 + 1) = 65536 := by norm_num
    omega
  exact toHexAux_length n n 3 h4

/-- Counterexample to claim C3 as stated: for the process identifier
65536 the code announces the FIRST four hex digits of the full value
("1000", from "10000" truncated by snprintf), not the rendering of its
low 16 bits ("0000"). -/
theorem c3_pid_low16_cex :
    pidAnnouncement 65536 = ['1', '0', '0', '0'] ∧
    pidAnnouncementSpec 65536 = ['0', '0', '0', '0'] ∧
    pidAnnouncement 65536 ≠ pidAnnouncementSpec 65536 := by decide

/-- Claim C3, amended: the identity announcement sent immediately after a
successful connect is exactly the first 4 characters of the
zero-padded-to-width-4 lowercase hex rendering of the FULL identifier
(always exactly 4 bytes, no terminator); this coincides with the
low-16-bits rendering whenever the identifier is below 65536, and
identifier 4321 is announced as "10e1". -/
theorem c3_pid_announcement (pid : Nat) (cs : Int) (m : Nat)
    (a : ConnAttempt) (rest : List ConnAttempt)
    (hconn : a.connectOk = true) (htrust : a.peerTrusted = true)
    (hsend : a.sendOk = true) :
    connectLoop pid cs m (a :: rest) =
      ConnRes.connected [Ev.sendPid (pidAnnouncement pid)] ∧
    (pidAnnouncement pid).length = 4 ∧
    (pid < 65536 → pidAnnouncement pid = pidAnnouncementSpec pid) ∧
    pidAnnouncement 4321 = ['1', '0', 'e', '1'] := by
  refine ⟨?_, ?_, ?_, by decide⟩
  · simp [connectLoop, hconn, htrust, hsend]
  · unfold pidAnnouncement
    rw [List.length_take, zeroPad4_length]
    omega
  · intro h
    unfold pidAnnouncement pidAnnouncementSpec
    rw [Nat.mod_eq_of_lt h]
    apply List.take_of_length_le
    have := toHex_length_le4 pid h
    rw [zeroPad4_length]
    omega

/-- Witness for the amended C3 at identifier 4321 (the claim's own
scenario) with a first-try successful connect. -/
theorem c3_pid_announcement_witness :
    connectLoop 4321 3 500
        [⟨true, true, true, false⟩] =
      ConnRes.connected [Ev.sendPid (pidAnnouncement 4321)] ∧
    pidAnnouncement 4321 = ['1', '0', 'e', '1'] := by
  have h := c3_pid_announcement 4321 3 500 ⟨true, true, true, false⟩ []
    rfl rfl rfl
  exact ⟨h.1, h.2.2.2⟩

/-! Claim C6. -/

/-- The backoff value before the (k+1)-th connect attempt when the first
sleep was `m`. -/
def sleepSeqFrom (m : Nat) : Nat → Nat
  | 0 => m
  | k + 1 => sleepSeqFrom (nextSleep m) k

lemma sleepSeqFrom_succ (k : Nat) :
    ∀ m, sleepSeqFrom m (k + 1) = nextSleep (sleepSeqFrom m k) := by
  induction k with
  | zero => intro m; rfl
  | succ k ih => intro m; exact ih (nextSleep m)

lemma sleepAfter_eq (k : Nat) : sleepAfter k = sleepSeqFrom 500 k := by
  induction k with
  | zero => rfl
  | succ k ih => rw [sleepSeqFrom_succ]; simp [sleepAfter, ih]

lemma nextSleep_min (m : Nat) : nextSleep m = min (m + m / 2) 2000 := by
  unfold nextSleep
  split <;> omega

lemma nextSleep_le (m : Nat) : nextSleep m ≤ 2000 := by
  unfold nextSleep
  split <;> omega

lemma nextSleep_ge (m : Nat) (h : 500 ≤ m) : 500 ≤ nextSleep m := by
  unfold nextSleep
  split <;> omega

/-- A connect attempt that fails with `shuttingDown` staying false. -/
def c6FailAttempt : ConnAttempt :=
  { connectOk := false, peerTrusted := true, sendOk := true,
    shutdownAfterSleep := false }

/-- A connect attempt that succeeds through trust check and pid send. -/
def c6OkAttempt : ConnAttempt :=
  { connectOk := true, peerTrusted := true, sendOk := true,
    shutdownAfterSleep := false }

lemma connectLoop_fail_step (pid : Nat) (cs : Int) (m : Nat)
    (rest : List ConnAttempt) :
    (connectLoop pid cs m (c6FailAttempt :: rest)).evs =
      Ev.sleep m :: (connectLoop pid cs (nextSleep m) rest).evs := by
  cases h : connectLoop pid cs (nextSleep m) rest <;>
    simp [connectLoop, c6FailAttempt, h, ConnRes.evs]

lemma c6_sleeps (n : Nat) : ∀ (pid : Nat) (cs : Int) (m : Nat),
    sleepEvs (connectLoop pid cs m
      (List.replicate n c6FailAttempt ++ [c6OkAttempt])).evs
      = (List.range n).map (sleepSeqFrom m) := by
  induction n with
  | zero =>
    intro pid cs m
    simp [connectLoop, c6OkAttempt, ConnRes.evs, sleepEvs]
  | succ n ih =>
    intro pid cs m
    rw [List.replicate_succ, List.cons_append, connectLoop_fail_step]
    have hcons : sleepEvs (Ev.sleep m ::
        (connectLoop pid cs (nextSleep m)
          (List.replicate n c6FailAttempt ++ [c6OkAttempt])).evs) =
        m :: sleepEvs (connectLoop pid cs (nextSleep m)
          (List.replicate n c6FailAttempt ++ [c6OkAttempt])).evs := by
      simp [sleepEvs]
    rw [hcons, ih, List.range_succ_eq_map, List.map_cons, List.map_map]
    rfl

/-- Counterexample to claim C6 as stated: the fourth sleep is 1687 ms
(1125 + 1125/2 in integer arithmetic), while multiplying by exactly 1.5
from 1125 - the cap playing no role below 2000 - would give 3375/2 =
1687.5 ms. -/
theorem c6_backoff_exact_ratio_cex :
    sleepEvs (connectLoop 0 3 500
      (List.replicate 4 c6FailAttempt ++ [c6OkAttempt])).evs
      = [500, 750, 1125, 1687] ∧
    claimSleepSeq 3 = 3375 / 2 ∧
    ((1687 : ℚ) ≠ claimSleepSeq 3) ∧
    sleepAfter 3 = 1687 ∧
    ((sleepAfter 3 : ℚ) ≠ claimSleepSeq 3) := by
  have h3 : claimSleepSeq 3 = 3375 / 2 := by
    have e0 : claimSleepSeq 0 = 500 := rfl
    have e1 : claimSleepSeq 1 = min (claimSleepSeq 0 * 3 / 2) 2000 := rfl
    have e2 : claimSleepSeq 2 = min (claimSleepSeq 1 * 3 / 2) 2000 := rfl
    have e3 : claimSleepSeq 3 = min (claimSleepSeq 2 * 3 / 2) 2000 := rfl
    rw [e3, e2, e1, e0]
    norm_num [min_def]
  have hs : sleepAfter 3 = 1687 := by decide
  refine ⟨by decide, h3, ?_, hs, ?_⟩
  · rw [h3]; norm_num
  · rw [hs, h3]; norm_num

/-- Claim C6, amended: between failed connect attempts the code sleeps
the sequence 500, then repeatedly s + s/2 in integer milliseconds
(multiplication by 1.5 rounded down), capped at 2000 ms; every sleep is
between 500 and 2000 ms regardless of how many attempts occur. -/
theorem c6_backoff_bounds (n pid : Nat) (cs : Int) :
    sleepEvs (connectLoop pid cs 500
      (List.replicate n c6FailAttempt ++ [c6OkAttempt])).evs
      = (List.range n).map sleepAfter ∧
    sleepAfter 0 = 500 ∧
    (∀ k, sleepAfter (k + 1) = min (sleepAfter k + sleepAfter k / 2) 2000) ∧
    (∀ k, sleepAfter k ≤ 2000) ∧
    (∀ k, 500 ≤ sleepAfter k) := by
  refine ⟨?_, rfl, ?_, ?_, ?_⟩
  · rw [c6_sleeps]
    have hfun : sleepAfter = sleepSeqFrom 500 := funext sleepAfter_eq
    rw [hfun]
  · intro k
    have : sleepAfter (k + 1) = nextSleep (sleepAfter k) := rfl
    rw [this, nextSleep_min]
  · intro k
    cases k with
    | zero => decide
    | succ k => exact nextSleep_le (sleepAfter k)
  · intro k
    induction k with
    | zero => decide
    | succ k ih => exact nextSleep_ge (sleepAfter k) ih

/-! Claim C4. -/

/-- The retry loop consumes at most `6 - rc` environment elements once
the counter stands at `rc ≤ 5`: later elements cannot influence the
result. -/
lemma acceptGo_take (envs : List RetryEnv) :
    ∀ (pid : Nat) (s : JdwpNetState) (rc : Nat), rc ≤ 5 →
      acceptGo pid s rc envs = acceptGo pid s rc (envs.take (6 - rc)) := by
  induction envs with
  | nil => intro pid s rc _; rw [List.take_nil]
  | cons e rest ih =>
    intro pid s rc h
    have h6 : 6 - rc = (5 - rc) + 1 := by omega
    rw [h6, List.take_succ_cons]
    simp only [acceptGo]
    cases hit : acceptIter pid s e with
    | ret b s1 evs => cases b <;> rfl
    | blocked s1 evs => rfl
    | recvFailed s1 evs =>
      dsimp only
      by_cases hrc : rc + 1 > 5
      · rw [if_pos hrc, if_pos hrc]
      · rw [if_neg hrc, if_neg hrc]
        have hres := ih pid s1 (rc + 1) (by omega)
        have h5 : 6 - (rc + 1) = 5 - rc := by omega
        rw [h5] at hres
        rw [hres]

/-- Claim C4: in `acceptConnection`, every descriptor-receive failure
increments the retry counter and re-enters the loop (whose next pass
starts from the shutting-down check) while the incremented counter is at
most 5; once it exceeds 5 the call fails terminally with "retries
exceeded"; and any call is determined by its first 6 retry-loop passes,
so the call never loops indefinitely on receive failures. -/
theorem c4_retry_bound (pid : Nat) (s : JdwpNetState) (rc : Nat)
    (e : RetryEnv) (rest : List RetryEnv) (s1 : JdwpNetState) (evs : List Ev)
    (hiter : acceptIter pid s e = AccOut.recvFailed s1 evs) :
    (rc + 1 ≤ 5 →
      acceptGo pid s rc (e :: rest) =
        withEvs evs (acceptGo pid s1 (rc + 1) rest)) ∧
    (5 < rc + 1 →
      acceptGo pid s rc (e :: rest) = (ARes.retriesExceeded, s1, evs)) ∧
    (∀ envs : List RetryEnv,
      acceptConnection pid s envs = acceptConnection pid s (envs.take 6)) := by
  refine ⟨?_, ?_, ?_⟩
  · intro hrc
    simp only [acceptGo, hiter]
    rw [if_neg (by omega)]
  · intro hrc
    simp only [acceptGo, hiter]
    rw [if_pos (by omega)]
  · intro envs
    unfold acceptConnection
    exact acceptGo_take envs pid s 0 (by omega)

/-- Concrete accept-loop state for the C4 witness: control channel
already established (fd 3). -/
def c4state : JdwpNetState :=
  { clientSock := -1, controlSock := 3, shuttingDown := false,
    wakeFds0 := 4, wakeFds1 := 5, inputBuffer := [],
    awaitingHandshake := false }

/-- Retry-loop environment whose descriptor receive fails with an
error. -/
def c4env : RetryEnv :=
  { shutdownAtTop := false, socketRet := -1, pipeRet := none,
    attempts := [], recvRaws := [RecvRaw.err], shutdownAfterRecv := false }

/-- Witness for C4: a concrete failing receive takes the step from
counter 0 to counter 1. -/
theorem c4_retry_bound_witness :
    acceptGo 0 c4state 0 [c4env] =
      withEvs [Ev.closeFd 3]
        (acceptGo 0 { c4state with clientSock := -1, controlSock := -1 }
          1 []) := by
  have h := c4_retry_bound 0 c4state 0 c4env []
    { c4state with clientSock := -1, controlSock := -1 }
    [Ev.closeFd 3] (by decide)
  exact h.1 (by omega)

/-! Claim C9. -/

/-- The receive step of the accept loop never touches the wake handles,
adds no event beyond its argument trace except control-socket closes, and
keeps every event of its argument trace. -/
lemma acceptRecv_inv (s : JdwpNetState) (e : RetryEnv) (evs0 : List Ev) :
    (acceptRecv s e evs0).state.wakeFds0 = s.wakeFds0 ∧
    (acceptRecv s e evs0).state.wakeFds1 = s.wakeFds1 ∧
    (∀ r w, Ev.pipeCreated r w ∉ evs0 →
      Ev.pipeCreated r w ∉ (acceptRecv s e evs0).evs) ∧
    (∀ x, x ∈ evs0 → x ∈ (acceptRecv s e evs0).evs) := by
  unfold acceptRecv
  rcases hrec : receiveClientFd e.recvRaws s with _ | ⟨fd, s1, revs⟩
  · simp [AccOut.state, AccOut.evs]
  · obtain ⟨_, _, _, hw0, hw1, _, hnp, _⟩ :=
      receiveClientFd_inv e.recvRaws s fd s1 revs hrec
    by_cases hsd : e.shutdownAfterRecv = true
    · simp [hsd, AccOut.state, AccOut.evs, hw0, hw1, hnp]
      exact fun x hx => Or.inl hx
    · by_cases hfd : fd < 0
      · simp [hsd, hfd, AccOut.state, AccOut.evs, hw0, hw1, hnp]
        exact fun x hx => Or.inl hx
      · simp [hsd, hfd, AccOut.state, AccOut.evs, hw0, hw1, hnp]
        exact fun x hx => Or.inl hx

/-- Claim C9, amended: `acceptConnection` creates a fresh wake pipe every
time it (re-)establishes the control channel - i.e. exactly when
`controlSock` is unset at the top of a retry pass - overwriting whatever
wake handles were already present; when the control channel is already
open the pass leaves the wake handles untouched and creates no pipe, so
the pipe is created once only in runs that never re-establish the
control channel. -/
theorem c9_wakepipe_recreated (pid : Nat) (s : JdwpNetState) (e : RetryEnv) :
    (0 ≤ s.controlSock → e.shutdownAtTop = false →
      (acceptIter pid s e).state.wakeFds0 = s.wakeFds0 ∧
      (acceptIter pid s e).state.wakeFds1 = s.wakeFds1 ∧
      ∀ r w, Ev.pipeCreated r w ∉ (acceptIter pid s e).evs) ∧
    (∀ r w : Nat, s.controlSock < 0 → e.shutdownAtTop = false →
      0 ≤ e.socketRet → e.pipeRet = some (r, w) →
      (acceptIter pid s e).state.wakeFds0 = (r : Int) ∧
      (acceptIter pid s e).state.wakeFds1 = (w : Int) ∧
      Ev.pipeCreated r w ∈ (acceptIter pid s e).evs) := by
  constructor
  · intro hctrl htop
    have hiter : acceptIter pid s e = acceptRecv s e [] := by
      unfold acceptIter
      rw [htop]
      simp only [Bool.false_eq_true, if_false]
      rw [if_pos hctrl]
    rw [hiter]
    obtain ⟨h0, h1, h2, _⟩ := acceptRecv_inv s e []
    exact ⟨h0, h1, fun r w => h2 r w (by simp)⟩
  · intro r w hctrl htop hsock hpipe
    have hni : ¬ 0 ≤ s.controlSock := not_le.mpr hctrl
    have hns : ¬ e.socketRet < 0 := not_lt.mpr hsock
    unfold acceptIter
    rw [htop]
    simp only [Bool.false_eq_true, if_false, if_neg hni, if_neg hns, hpipe]
    try dsimp only
    rcases hconn : connectLoop pid e.socketRet 500 e.attempts with
        evs | evs | evs <;> try dsimp only
    · obtain ⟨h0, h1, _, h3⟩ := acceptRecv_inv
        { s with controlSock := e.socketRet,
                 wakeFds0 := (r : Int), wakeFds1 := (w : Int) }
        e (Ev.pipeCreated r w :: evs)
      exact ⟨h0, h1, h3 (Ev.pipeCreated r w) (by simp)⟩
    · simp [AccOut.state, AccOut.evs]
    · simp [AccOut.state, AccOut.evs]

/-- Concrete session state for the C9 counterexample: the wake pipe is
already present (handles 7 and 8) but the control channel is unset. -/
def c9state : JdwpNetState :=
  { clientSock := -1, controlSock := -1, shuttingDown := false,
    wakeFds0 := 7, wakeFds1 := 8, inputBuffer := [],
    awaitingHandshake := false }

/-- C9 counterexample environment: socket(2) gives fd 3, pipe(2) gives
(9, 10), connect succeeds at once, and the broker passes descriptor
11. -/
def c9env : RetryEnv :=
  { shutdownAtTop := false, socketRet := 3, pipeRet := some (9, 10),
    attempts := [⟨true, true, true, false⟩],
    recvRaws := [RecvRaw.msg (some 11)], shutdownAfterRecv := false }

/-- Counterexample to claim C9 as stated: with the wake-channel handles
already set to (7, 8), a single `acceptConnection` call that must
re-establish the control channel creates a fresh pipe and OVERWRITES the
handles with (9, 10); the old descriptors are never closed. -/
theorem c9_wakepipe_once_cex :
    0 ≤ c9state.wakeFds0 ∧ c9state.wakeFds0 = 7 ∧ c9state.wakeFds1 = 8 ∧
    (acceptConnection 0 c9state [c9env]).1 = ARes.ok ∧
    (acceptConnection 0 c9state [c9env]).2.1.wakeFds0 = 9 ∧
    (acceptConnection 0 c9state [c9env]).2.1.wakeFds1 = 10 ∧
    Ev.pipeCreated 9 10 ∈ (acceptConnection 0 c9state [c9env]).2.2 ∧
    Ev.closeFd 7 ∉ (acceptConnection 0 c9state [c9env]).2.2 ∧
    Ev.closeFd 8 ∉ (acceptConnection 0 c9state [c9env]).2.2 := by decide

/-- Accept-loop state with an open control channel, for the C9
witness. -/
def c9wstate : JdwpNetState :=
  { clientSock := -1, controlSock := 6, shuttingDown := false,
    wakeFds0 := 7, wakeFds1 := 8, inputBuffer := [],
    awaitingHandshake := false }

/-- Retry-pass environment for the C9 witness. -/
def c9wenv : RetryEnv :=
  { shutdownAtTop := false, socketRet := -1, pipeRet := none,
    attempts := [], recvRaws := [RecvRaw.msg (some 11)],
    shutdownAfterRecv := false }

/-- Witness for the amended C9: with the control channel open, a retry
pass keeps the wake handles and creates no pipe. -/
theorem c9_wakepipe_recreated_witness :
    (acceptIter 0 c9wstate c9wenv).state.wakeFds0 = c9wstate.wakeFds0 ∧
    (acceptIter 0 c9wstate c9wenv).state.wakeFds1 = c9wstate.wakeFds1 ∧
    ∀ r w, Ev.pipeCreated r w ∉ (acceptIter 0 c9wstate c9wenv).evs :=
  (c9_wakepipe_recreated 0 c9wstate c9wenv).1 (by decide) rfl

/-! Invariants of the wait-loop iteration, shared by the
`processIncoming` claims: an iteration never changes
`awaitingHandshake` and never performs a handshake-echo write. -/

lemma piIterClient_inv (s : JdwpNetState) (evs : List Ev) (rd : ReadRes)
    (client : Bool) :
    (piIterClient s evs rd client).state.awaitingHandshake =
      s.awaitingHandshake ∧
    ∀ b r, Ev.write b r ∉ evs →
      Ev.write b r ∉ (piIterClient s evs rd client).evs := by
  unfold piIterClient
  by_cases hc : 0 ≤ s.clientSock ∧ client = true
  · rw [if_pos hc]
    cases rd with
    | err eintr =>
      dsimp only
      by_cases he : eintr = true
      · rw [if_pos he]
        exact ⟨rfl, fun b r hb => hb⟩
      · rw [if_neg he]
        refine ⟨stateClose_awaiting s, fun b r hb => ?_⟩
        simp only [IterOut.evs, List.mem_append, not_or]
        exact ⟨hb, stateClose_no_write s b r⟩
    | data bs =>
      dsimp only
      by_cases hbs : List.take (kInputBufferSize - s.inputBuffer.length) bs = []
      · rw [if_pos hbs]
        refine ⟨stateClose_awaiting s, fun b r hb => ?_⟩
        simp only [IterOut.evs, List.mem_append, not_or]
        exact ⟨hb, stateClose_no_write s b r⟩
      · rw [if_neg hbs]
        exact ⟨rfl, fun b r hb => hb⟩
  · rw [if_neg hc]
    exact ⟨rfl, fun b r hb => hb⟩

lemma piIterCtrl_inv (s : JdwpNetState) (e : IterEnv)
    (control client : Bool) :
    (piIterCtrl s e control client).state.awaitingHandshake =
      s.awaitingHandshake ∧
    ∀ b r, Ev.write b r ∉ (piIterCtrl s e control client).evs := by
  unfold piIterCtrl
  by_cases hc : 0 ≤ s.controlSock ∧ control = true
  · rw [if_pos hc]
    rcases hrec : receiveClientFd e.recvRaws s with _ | ⟨fd, s1, revs⟩
    · dsimp only
      exact ⟨rfl, by simp [IterOut.evs]⟩
    · dsimp only
      obtain ⟨ha, _, _, _, _, hnw, _, _⟩ :=
        receiveClientFd_inv e.recvRaws s fd s1 revs hrec
      by_cases hfd : 0 ≤ fd
      · rw [if_pos hfd]
        obtain ⟨h1, h2⟩ :=
          piIterClient_inv s1 (revs ++ [Ev.closeFd fd]) e.read client
        refine ⟨h1.trans ha, fun b r => h2 b r ?_⟩
        simp only [List.mem_append, not_or]
        exact ⟨hnw b r, by simp⟩
      · rw [if_neg hfd]
        by_cases hcs : 0 ≤ s1.controlSock
        · rw [if_pos hcs]
          exact ⟨ha, fun b r => hnw b r⟩
        · rw [if_neg hcs]
          obtain ⟨h1, h2⟩ := piIterClient_inv s1 revs e.read client
          exact ⟨h1.trans ha, fun b r => h2 b r (hnw b r)⟩
  · rw [if_neg hc]
    obtain ⟨h1, h2⟩ := piIterClient_inv s [] e.read client
    exact ⟨h1, fun b r => h2 b r (by simp)⟩

lemma piIter_inv (s : JdwpNetState) (e : IterEnv) :
    (piIter s e).state.awaitingHandshake = s.awaitingHandshake ∧
    ∀ b r, Ev.write b r ∉ (piIter s e).evs := by
  unfold piIter
  by_cases h0 : s.controlSock < 0 ∧ s.clientSock < 0 ∧ s.wakeFds0 < 0
  · rw [if_pos h0]
    exact ⟨rfl, by simp [IterOut.evs]⟩
  · rw [if_neg h0]
    cases hsel : e.sel with
    | err eintr =>
      dsimp only
      by_cases he : eintr = true
      · rw [if_pos he]
        exact ⟨rfl, by simp [IterOut.evs]⟩
      · rw [if_neg he]
        exact ⟨stateClose_awaiting s, fun b r => stateClose_no_write s b r⟩
    | ready wake control client =>
      dsimp only
      by_cases hw : 0 ≤ s.wakeFds0 ∧ wake = true
      · rw [if_pos hw]
        exact ⟨stateClose_awaiting s, fun b r => stateClose_no_write s b r⟩
      · rw [if_neg hw]
        exact piIterCtrl_inv s e control client

lemma afterLoop_notAwaiting (s : JdwpNetState) (w : Int) (hr : Bool)
    (hA : s.awaitingHandshake = false) :
    afterLoop s w hr = (PIRes.ret hr, s, [Ev.handlePacket]) := by
  unfold afterLoop
  rw [hA]
  simp

lemma piLoop_notAwaiting (w : Int) (hr : Bool) (iters : List IterEnv) :
    ∀ (s : JdwpNetState), s.awaitingHandshake = false →
      (piLoop w hr s iters).2.1.awaitingHandshake = false ∧
      ∀ b r, Ev.write b r ∉ (piLoop w hr s iters).2.2 := by
  induction iters with
  | nil => intro s hA; simpa [piLoop] using hA
  | cons e rest ih =>
    intro s hA
    have hinv := piIter_inv s e
    simp only [piLoop]
    cases hit : piIter s e with
    | cont s1 evs =>
      rw [hit] at hinv
      simp only [IterOut.state, IterOut.evs] at hinv
      have h1 := ih s1 (hinv.1.trans hA)
      dsimp only
      constructor
      · simp only [withEvs]
        exact h1.1
      · intro b r
        simp only [withEvs, List.mem_append, not_or]
        exact ⟨hinv.2 b r, h1.2 b r⟩
    | ret b1 s1 evs =>
      rw [hit] at hinv
      simp only [IterOut.state, IterOut.evs] at hinv
      exact ⟨hinv.1.trans hA, hinv.2⟩
    | abort s1 evs =>
      rw [hit] at hinv
      simp only [IterOut.state, IterOut.evs] at hinv
      exact ⟨hinv.1.trans hA, hinv.2⟩
    | blocked s1 evs =>
      rw [hit] at hinv
      simp only [IterOut.state, IterOut.evs] at hinv
      exact ⟨hinv.1.trans hA, hinv.2⟩
    | gotData s1 evs =>
      rw [hit] at hinv
      simp only [IterOut.state, IterOut.evs] at hinv
      have hA1 : s1.awaitingHandshake = false := hinv.1.trans hA
      dsimp only
      by_cases hfp : HaveFullPacket s1 = true
      · rw [if_pos hfp, afterLoop_notAwaiting s1 w hr hA1]
        constructor
        · simp [withEvs, hA1]
        · intro b r
          simp only [withEvs, List.mem_append, not_or]
          exact ⟨hinv.2 b r, by simp⟩
      · rw [if_neg hfp]
        exact ⟨hA1, hinv.2⟩

/-! Claim C1. -/

/-- Claim C1: with a connection awaiting the handshake and at least 14
bytes buffered, `processIncoming` compares the first 14 buffered bytes
with the literal "JDWP-Handshake"; on mismatch nothing is echoed and the
connection is closed with a false return; on match exactly those 14
bytes are echoed (any write result other than 14 closes the connection),
the 14 bytes are consumed and `awaitingHandshake` is cleared; once
`awaitingHandshake` is false no echo is ever written, and the flag is
never turned back on, so at most one echo occurs per accepted
connection. -/
theorem c1_handshake_exact (s : JdwpNetState) (env : PIEnv)
    (hcs : 0 ≤ s.clientSock) :
    (s.awaitingHandshake = true → 14 ≤ s.inputBuffer.length →
      ((s.inputBuffer.take 14 = kMagicHandshake →
        (env.writeRet = 14 →
          processIncoming s env =
            (PIRes.ret true,
             { (consumeBytes s 14) with awaitingHandshake := false },
             [Ev.write kMagicHandshake 14])) ∧
        (env.writeRet ≠ 14 →
          processIncoming s env =
            (PIRes.ret false, (stateClose s).1,
             Ev.write kMagicHandshake env.writeRet :: (stateClose s).2))) ∧
       (s.inputBuffer.take 14 ≠ kMagicHandshake →
        processIncoming s env =
          (PIRes.ret false, (stateClose s).1, (stateClose s).2) ∧
        ∀ b r, Ev.write b r ∉ (stateClose s).2))) ∧
    (s.awaitingHandshake = false →
      ∀ b r, Ev.write b r ∉ (processIncoming s env).2.2) ∧
    ((processIncoming s env).2.1.awaitingHandshake = true →
      s.awaitingHandshake = true) := by
  have hnl : ¬ s.clientSock < 0 := not_lt.mpr hcs
  refine ⟨?_, ?_, ?_⟩
  · intro hA hlen
    have hfp : HaveFullPacket s = true := by
      unfold HaveFullPacket
      rw [hA]
      simp [hlen]
    have hpi : processIncoming s env =
        afterLoop s env.writeRet env.handleRet := by
      unfold processIncoming
      rw [if_neg hnl, if_pos hfp]
    constructor
    · intro hm
      constructor
      · intro hw
        rw [hpi]
        unfold afterLoop
        rw [hA]
        simp only [if_true]
        rw [if_pos hm, if_pos hw, hm, hw]
      · intro hw
        rw [hpi]
        unfold afterLoop
        rw [hA]
        simp only [if_true]
        rw [if_pos hm, if_neg hw, hm]
    · intro hm
      rw [hpi]
      unfold afterLoop
      rw [hA]
      simp only [if_true]
      rw [if_neg hm]
      exact ⟨rfl, fun b r => stateClose_no_write s b r⟩
  · intro hA b r
    unfold processIncoming
    by_cases h0 : s.clientSock < 0
    · rw [if_pos h0]; simp
    · rw [if_neg h0]
      by_cases hfp : HaveFullPacket s = true
      · rw [if_pos hfp, afterLoop_notAwaiting s env.writeRet env.handleRet hA]
        simp
      · rw [if_neg hfp]
        exact (piLoop_notAwaiting env.writeRet env.handleRet env.iters s hA).2 b r
  · intro hres
    by_cases hA : s.awaitingHandshake = true
    · exact hA
    · exfalso
      have hA0 : s.awaitingHandshake = false := by
        cases h : s.awaitingHandshake
        · rfl
        · exact absurd h hA
      revert hres
      unfold processIncoming
      by_cases h0 : s.clientSock < 0
      · rw [if_pos h0]
        simp [hA0]
      · rw [if_neg h0]
        by_cases hfp : HaveFullPacket s = true
        · rw [if_pos hfp,
            afterLoop_notAwaiting s env.writeRet env.handleRet hA0]
          simp [hA0]
        · rw [if_neg hfp]
          have := (piLoop_notAwaiting env.writeRet env.handleRet
            env.iters s hA0).1
          simp [this]

/-- Connection state for the C1 witness: awaiting handshake with exactly
the 14 magic bytes buffered. -/
def c1wstate : JdwpNetState :=
  { clientSock := 5, controlSock := 4, shuttingDown := false,
    wakeFds0 := 2, wakeFds1 := 3, inputBuffer := kMagicHandshake,
    awaitingHandshake := true }

/-- Environment for the C1 witness: the echo write reports 14 bytes. -/
def c1wenv : PIEnv := { iters := [], writeRet := 14, handleRet := true }

/-- Witness for C1: on the exact handshake bytes the echo is written,
the buffer is drained and the flag cleared. -/
theorem c1_handshake_exact_witness :
    processIncoming c1wstate c1wenv =
      (PIRes.ret true,
       { (consumeBytes c1wstate 14) with awaitingHandshake := false },
       [Ev.write kMagicHandshake 14]) := by
  have h := c1_handshake_exact c1wstate c1wenv (by decide)
  exact ((h.1 rfl (by decide)).1 (by decide)).1 rfl

/-! Claim C5. -/

/-- Claim C5: when the wait reports only the control channel ready while
a client channel is active and the descriptor receiver yields a second
descriptor, that descriptor is closed immediately, the handler is never
invoked on it, the whole connection state (client channel, buffer,
handshake flag - in fact every field) is unchanged, and the wait loop
simply continues with the next iteration. -/
theorem c5_second_debugger_rejected (s : JdwpNetState) (e : IterEnv)
    (rest : List IterEnv) (w : Int) (hr : Bool) (f : Nat)
    (hctrl : 0 ≤ s.controlSock) (_hcli : 0 ≤ s.clientSock)
    (hsel : e.sel = SelRes.ready false true false)
    (hrecv : recvmsgRetry e.recvRaws = some (RecvRaw.msg (some f))) :
    piIter s e = IterOut.cont s [Ev.closeFd (f : Int)] ∧
    piLoop w hr s (e :: rest) =
      withEvs [Ev.closeFd (f : Int)] (piLoop w hr s rest) ∧
    Ev.handlePacket ∉ [Ev.closeFd (f : Int)] ∧
    ∀ b r, Ev.write b r ∉ [Ev.closeFd (f : Int)] := by
  have hpi : piIter s e = IterOut.cont s [Ev.closeFd (f : Int)] := by
    unfold piIter
    rw [if_neg (fun h => absurd hctrl (not_le.mpr h.1))]
    rw [hsel]
    dsimp only
    rw [if_neg (by simp)]
    unfold piIterCtrl
    rw [if_pos ⟨hctrl, rfl⟩]
    have hrc : receiveClientFd e.recvRaws s = some ((f : Int), s, []) := by
      unfold receiveClientFd
      rw [hrecv]
    rw [hrc]
    dsimp only
    rw [if_pos (Int.natCast_nonneg f)]
    unfold piIterClient
    rw [if_neg (by simp)]
    rw [List.nil_append]
  refine ⟨hpi, ?_, by simp, by simp⟩
  simp only [piLoop, hpi]

/-- Connection state for the C5 witness. -/
def c5wstate : JdwpNetState :=
  { clientSock := 5, controlSock := 4, shuttingDown := false,
    wakeFds0 := 2, wakeFds1 := 3, inputBuffer := [1, 2, 3],
    awaitingHandshake := false }

/-- Wait-loop environment for the C5 witness: control ready, a second
descriptor (fd 9) arrives. -/
def c5wenv : IterEnv :=
  { sel := SelRes.ready false true false,
    recvRaws := [RecvRaw.msg (some 9)], read := ReadRes.err true }

/-- Witness for C5: the second descriptor 9 is closed and the iteration
leaves the state untouched. -/
theorem c5_second_debugger_rejected_witness :
    piIter c5wstate c5wenv = IterOut.cont c5wstate [Ev.closeFd 9] :=
  (c5_second_debugger_rejected c5wstate c5wenv [] 14 true 9
    (by decide) (by decide) rfl (by decide)).1

/-! Claim C8. -/

/-- Connection state for the C8 counterexample. -/
def c8state : JdwpNetState :=
  { clientSock := 5, controlSock := -1, shuttingDown := false,
    wakeFds0 := 3, wakeFds1 := 4, inputBuffer := [],
    awaitingHandshake := true }

/-- C8 iteration whose client read fails with EINTR. -/
def c8envEintr : IterEnv :=
  { sel := SelRes.ready false false true, recvRaws := [],
    read := ReadRes.err true }

/-- C8 iteration whose client read returns 0 bytes (EOF). -/
def c8envEof : IterEnv :=
  { sel := SelRes.ready false false true, recvRaws := [],
    read := ReadRes.data [] }

/-- Counterexample to claim C8 as stated: after an EINTR read the
readiness-wait loop is NOT retried within the call - `processIncoming`
returns true immediately.  If the loop were retried, the remaining
environment (an EOF read) would be consumed and the call would report
connection loss; instead the EINTR call returns true with the state
untouched, while the same call without the EINTR iteration returns
false and closes the client channel. -/
theorem c8_eintr_retry_cex :
    processIncoming c8state
        { iters := [c8envEintr, c8envEof], writeRet := 14,
          handleRet := true } = (PIRes.ret true, c8state, []) ∧
    processIncoming c8state
        { iters := [c8envEof], writeRet := 14, handleRet := true } =
      (PIRes.ret false, { c8state with clientSock := -1 },
       [Ev.closeFd 5]) ∧
    processIncoming c8state
        { iters := [c8envEintr, c8envEof], writeRet := 14,
          handleRet := true } ≠
      processIncoming c8state
        { iters := [c8envEof], writeRet := 14, handleRet := true } := by
  decide

/-- Claim C8, amended: if the single read from the client channel fails
with EINTR, `processIncoming` reports success (true) immediately with no
state change and no close - so no connection loss; the wait loop is
re-entered only through the caller's next `processIncoming` call, not
within the same call.  Every other read error, and a zero-byte read,
closes the connection and reports connection loss (false). -/
theorem c8_read_error_handling (s : JdwpNetState) (env : PIEnv)
    (e : IterEnv) (rest : List IterEnv)
    (hcs : 0 ≤ s.clientSock) (hfp : HaveFullPacket s = false)
    (hiters : env.iters = e :: rest)
    (hsel : e.sel = SelRes.ready false false true) :
    (e.read = ReadRes.err true →
      processIncoming s env = (PIRes.ret true, s, [])) ∧
    (e.read = ReadRes.err false →
      processIncoming s env =
        (PIRes.ret false, (stateClose s).1, (stateClose s).2)) ∧
    (e.read = ReadRes.data [] →
      processIncoming s env =
        (PIRes.ret false, (stateClose s).1, (stateClose s).2)) := by
  have hnl : ¬ s.clientSock < 0 := not_lt.mpr hcs
  have hstep : processIncoming s env =
      piLoop env.writeRet env.handleRet s (e :: rest) := by
    unfold processIncoming
    rw [if_neg hnl, if_neg (by simp [hfp]), hiters]
  have hiter0 : piIter s e = piIterClient s [] e.read true := by
    unfold piIter
    rw [if_neg (fun h => absurd h.2.1 hnl)]
    rw [hsel]
    dsimp only
    rw [if_neg (by simp)]
    unfold piIterCtrl
    rw [if_neg (by simp)]
  refine ⟨?_, ?_, ?_⟩ <;> intro hrd
  · have hpit : piIter s e = IterOut.ret true s [] := by
      rw [hiter0]
      unfold piIterClient
      rw [if_pos ⟨hcs, rfl⟩, hrd]
      simp
    rw [hstep]
    simp only [piLoop, hpit]
  · have hpit : piIter s e =
        IterOut.ret false (stateClose s).1 ([] ++ (stateClose s).2) := by
      rw [hiter0]
      unfold piIterClient
      rw [if_pos ⟨hcs, rfl⟩, hrd]
      simp
    rw [hstep]
    simp only [piLoop, hpit]
    rw [List.nil_append]
  · have hpit : piIter s e =
        IterOut.ret false (stateClose s).1 ([] ++ (stateClose s).2) := by
      rw [hiter0]
      unfold piIterClient
      rw [if_pos ⟨hcs, rfl⟩, hrd]
      simp
    rw [hstep]
    simp only [piLoop, hpit]
    rw [List.nil_append]

/-- Witness for the amended C8 at a concrete EINTR read. -/
theorem c8_read_error_handling_witness :
    processIncoming c8state
        { iters := [c8envEintr], writeRet := 14, handleRet := true } =
      (PIRes.ret true, c8state, []) :=
  (c8_read_error_handling c8state
      { iters := [c8envEintr], writeRet := 14, handleRet := true }
      c8envEintr [] (by decide) (by decide) rfl rfl).1 rfl

end JdwpAdb
